import Mathlib

/-!
Verification of the vessel-path and particle-flow core of the circulatory-system
renderer (`src/components/CirculatorySystem.tsx`).

The numeric state of the program (particle parametric positions, offsets, colors,
curve control points) is embedded over `ℚ`, mirroring the source arithmetic
exactly; the wall-clock oscillators (heart pulse, lung breathing), which apply
`Math.sin` to real times, are embedded over `ℝ` with `Real.sin`.

Curve evaluation (`getPointAt`) is arc-length resampling inside three.js; the
per-tick simulator only consumes its result, which the source guards with
`if (pos)`.  We therefore model a curve sample as `ℚ → Option Vec3` where the
simulator is concerned, exactly matching the guard in the source.
-/

set_option maxHeartbeats 1000000

namespace Circulatory

/-- Rational 3D vector, modelling `THREE.Vector3` coordinates. -/
structure Vec3 where
  x : ℚ
  y : ℚ
  z : ℚ
deriving DecidableEq

/-- `Vector3.add` componentwise addition. -/
def Vec3.add (a b : Vec3) : Vec3 := ⟨a.x + b.x, a.y + b.y, a.z + b.z⟩

/-- `Vector3.lerpVectors(v1, v2, alpha)`: `v1 + (v2 - v1) * alpha` componentwise. -/
def lerpVectors (a b : Vec3) (t : ℚ) : Vec3 :=
  ⟨a.x + (b.x - a.x) * t, a.y + (b.y - a.y) * t, a.z + (b.z - a.z) * t⟩

/-- Squared Euclidean length of a vector. -/
def Vec3.normSq (v : Vec3) : ℚ := v.x ^ 2 + v.y ^ 2 + v.z ^ 2

/-- Rational RGB color, modelling `THREE.Color` channels. -/
structure ColorQ where
  r : ℚ
  g : ℚ
  b : ℚ
deriving DecidableEq

/-- `Color.lerpColors(c1, c2, alpha)`: `c1 + (c2 - c1) * alpha` per channel. -/
def lerpColors (c1 c2 : ColorQ) (alpha : ℚ) : ColorQ :=
  ⟨c1.r + (c2.r - c1.r) * alpha,
   c1.g + (c2.g - c1.g) * alpha,
   c1.b + (c2.b - c1.b) * alpha⟩

/-- `new Color('#ef4444')` (red, oxygen-rich), channels as 8-bit fractions. -/
def COLOR_O2_RICH : ColorQ := ⟨239/255, 68/255, 68/255⟩

/-- `new Color('#3b82f6')` (blue, oxygen-poor), channels as 8-bit fractions. -/
def COLOR_O2_POOR : ColorQ := ⟨59/255, 130/255, 246/255⟩

/-- One blood particle of a `BloodFlow` unit: parametric position `t`,
fixed lateral jitter `offset`, fixed per-particle `speedMod`. -/
structure Particle where
  t : ℚ
  offset : Vec3
  speedMod : ℚ
deriving DecidableEq

/-- Particle creation (`BloodFlow`, `useMemo` particle array): the five
`Math.random()` draws `u0 ux uy uz us` (each in `[0,1)`) give
`t = u0`, `offset` componentwise `(u - 0.5) * (radius * 1.8)`, and
`speedMod = 0.8 + us * 0.4`. -/
def mkParticle (u0 ux uy uz us : ℚ) (radius : ℚ) : Particle :=
  { t := u0
    offset := ⟨(ux - 0.5) * (radius * 1.8),
               (uy - 0.5) * (radius * 1.8),
               (uz - 0.5) * (radius * 1.8)⟩
    speedMod := 0.8 + us * 0.4 }

/-- `const moveSpeed = speed * delta * 0.15` in the `useFrame` callback. -/
def moveSpeed (speed delta : ℚ) : ℚ := speed * delta * 0.15

/-- One advance of the parametric position:
`particle.t += step; if (particle.t > 1) particle.t -= 1`. -/
def advanceT (t step : ℚ) : ℚ :=
  if t + step > 1 then t + step - 1 else t + step

/-- Per-tick particle state update: only `t` mutates, by
`moveSpeed * particle.speedMod`, with the wrap above. -/
def tickParticle (p : Particle) (ms : ℚ) : Particle :=
  { p with t := advanceT p.t (ms * p.speedMod) }

/-- `N` ticks of the parametric advance at a fixed per-tick step. -/
def advanceN (t0 step : ℚ) : ℕ → ℚ
  | 0 => t0
  | n + 1 => advanceT (advanceN t0 step n) step

/-- The `type` prop of `BloodFlow`. -/
inductive FlowType
  | systemic
  | pulmonary
  | internal
  | capillary
deriving DecidableEq

/-- The clamped interpolation factor of the 0.3–0.5 color window:
`Math.min(1, Math.max(0, (t - 0.3) * 5))`. -/
def pulmMix (t : ℚ) : ℚ := min 1 (max 0 ((t - 0.3) * 5))

/-- Per-particle color law of `BloodFlow` (source lines 116–139): override color
wins; else pulmonary is blue→red over the window, systemic red→blue, capillary
red→blue linearly in `t`; else the `new Color()` default (white). -/
def particleColor (ty : Option FlowType) (overrideColor : Option ColorQ) (t : ℚ) : ColorQ :=
  match overrideColor with
  | some c => c
  | none =>
    match ty with
    | some FlowType.pulmonary =>
        if t < 0.5 then lerpColors COLOR_O2_POOR COLOR_O2_RICH (pulmMix t) else COLOR_O2_RICH
    | some FlowType.systemic =>
        if t < 0.5 then lerpColors COLOR_O2_RICH COLOR_O2_POOR (pulmMix t) else COLOR_O2_POOR
    | some FlowType.capillary => lerpColors COLOR_O2_RICH COLOR_O2_POOR t
    | _ => ⟨1, 1, 1⟩

/-- Per-particle scale law of `BloodFlow` (source lines 103–110). -/
def particleScale (ty : Option FlowType) (t : ℚ) : ℚ :=
  let s1 : ℚ := if ty = some FlowType.internal then 0.5 else 0.7
  let s2 : ℚ := if ty = some FlowType.capillary then 0.35 else s1
  if ty ≠ some FlowType.capillary ∧ 0.4 < t ∧ t < 0.6 then 0.4 else s2

/-- One particle's slot in the instanced render buffers: the transform written
by `setMatrixAt` (position and uniform scale) and the color of `setColorAt`. -/
structure Slot where
  position : Vec3
  scale : ℚ
  color : ColorQ
deriving DecidableEq

/-- Buffer write of one particle after its advance: evaluate the curve at the
new `t`; `if (pos)` write position `pos + offset`, scale and color; on an
undefined sample leave the slot as it was. -/
def updateSlot (eval : ℚ → Option Vec3) (ty : Option FlowType) (ov : Option ColorQ)
    (p : Particle) (old : Slot) : Slot :=
  match eval p.t with
  | none => old
  | some pos =>
      { position := pos.add p.offset
        scale := particleScale ty p.t
        color := particleColor ty ov p.t }

/-- Full per-tick treatment of one particle: advance `t`, then write the slot
(or keep the old slot when the sample is undefined). -/
def tickFlow (eval : ℚ → Option Vec3) (ty : Option FlowType) (ov : Option ColorQ)
    (ms : ℚ) (p : Particle) (old : Slot) : Particle × Slot :=
  (tickParticle p ms, updateSlot eval ty ov (tickParticle p ms) old)

lemma advanceT_cases (t step : ℚ) :
    advanceT t step = t + step ∨ advanceT t step = t + step - 1 := by
  unfold advanceT
  split_ifs
  · right; rfl
  · left; rfl

lemma advanceT_mem (t step : ℚ) (h0 : 0 ≤ t) (h1 : t ≤ 1) (hs : 0 < step)
    (hs1 : step ≤ 1) : 0 ≤ advanceT t step ∧ advanceT t step ≤ 1 := by
  unfold advanceT
  split_ifs with h <;> constructor <;> linarith

lemma advanceN_mem (t0 step : ℚ) (h0 : 0 ≤ t0) (h1 : t0 ≤ 1) (hs : 0 < step)
    (hs1 : step ≤ 1) (n : ℕ) :
    0 ≤ advanceN t0 step n ∧ advanceN t0 step n ≤ 1 := by
  induction n with
  | zero => exact ⟨h0, h1⟩
  | succ n ih => exact advanceT_mem _ _ ih.1 ih.2 hs hs1

lemma advanceN_int (t0 step : ℚ) (n : ℕ) :
    ∃ k : ℤ, advanceN t0 step n = t0 + n * step + k := by
  induction n with
  | zero => exact ⟨0, by simp [advanceN]⟩
  | succ n ih =>
      obtain ⟨k, hk⟩ := ih
      rcases advanceT_cases (advanceN t0 step n) step with h | h
      · refine ⟨k, ?_⟩
        show advanceT (advanceN t0 step n) step = _
        rw [h, hk]; push_cast; ring
      · refine ⟨k - 1, ?_⟩
        show advanceT (advanceN t0 step n) step = _
        rw [h, hk]; push_cast; ring

lemma advanceN_fract (t0 step : ℚ) (n : ℕ) :
    Int.fract (advanceN t0 step n) = Int.fract (t0 + n * step) := by
  obtain ⟨k, hk⟩ := advanceN_int t0 step n
  rw [hk, Int.fract_add_int]

/-- Claim C1 (amended). Each tick advances `t` by
`baseSpeed * deltaTime * 0.15 * speedMod` (so with `flowSpeed = 1`,
`delta = 1/60`, `speedMod = 1` the increment is exactly `1/400 = 0.0025`) and
wraps by subtracting `1` when `t` exceeds `1`.  Since the wrap test is the
strict `t > 1`, the stored `t` stays in the closed interval `[0,1]` — not
`[0,1)` — and after `N` ticks with a per-tick step in `(0,1]` the fractional
part of `t` equals `(t0 + N·step) mod 1`; `t` itself equals that value except
when `t0 + N·step` lands exactly on an integer, where the code stores `1`. -/
theorem C1_tick_advance (t0 step : ℚ) (n : ℕ)
    (h0 : 0 ≤ t0) (h1 : t0 < 1) (hs : 0 < step) (hs1 : step ≤ 1) :
    (0 ≤ advanceN t0 step n ∧ advanceN t0 step n ≤ 1) ∧
    Int.fract (advanceN t0 step n) = Int.fract (t0 + n * step) ∧
    (∀ p ms, (tickParticle p ms).t = advanceT p.t (ms * p.speedMod)) ∧
    moveSpeed 1 (1/60) * 1 = 1/400 :=
  ⟨advanceN_mem t0 step h0 (le_of_lt h1) hs hs1 n,
   advanceN_fract t0 step n,
   fun _ _ => rfl,
   by norm_num [moveSpeed]⟩

/-- Claim C1 witness: the amended statement instantiated at `t0 = 1/2`,
`step = 1/400` (the spec's own scenario step) and `N = 1`. -/
theorem C1_tick_advance_witness :
    (0 ≤ advanceN (1/2) (1/400) 1 ∧ advanceN (1/2) (1/400) 1 ≤ 1) ∧
    Int.fract (advanceN (1/2) (1/400) 1) = Int.fract ((1/2 : ℚ) + (1 : ℕ) * (1/400)) ∧
    (∀ p ms, (tickParticle p ms).t = advanceT p.t (ms * p.speedMod)) ∧
    moveSpeed 1 (1/60) * 1 = 1/400 :=
  C1_tick_advance (1/2) (1/400) 1 (by norm_num) (by norm_num) (by norm_num) (by norm_num)

/-- Claim C1 counterexample, to the claim as stated: take the legal initial
position `t0 = 399/400` and the spec's scenario step `0.0025`.  After one tick
the stored `t` is exactly `1`, which does not lie in `[0,1)` and differs from
`(t0 + 1·step) mod 1 = 0`. -/
theorem C1_counterexample :
    (tickParticle ⟨399/400, ⟨0, 0, 0⟩, 1⟩ (moveSpeed 1 (1/60))).t = 1 ∧
    ¬ (tickParticle ⟨399/400, ⟨0, 0, 0⟩, 1⟩ (moveSpeed 1 (1/60))).t < 1 ∧
    Int.fract ((399/400 : ℚ) + 1 * (moveSpeed 1 (1/60) * 1)) = 0 := by
  refine ⟨?_, ?_, ?_⟩ <;>
    norm_num [tickParticle, advanceT, moveSpeed, Int.fract]

lemma lerpColors_zero (a b : ColorQ) : lerpColors a b 0 = a := by
  cases a; cases b; simp [lerpColors]

lemma lerpColors_one (a b : ColorQ) : lerpColors a b 1 = b := by
  cases a; cases b
  simp only [lerpColors, ColorQ.mk.injEq]
  refine ⟨by ring, by ring, by ring⟩

lemma pulmMix_of_le (t : ℚ) (h : t ≤ 0.3) : pulmMix t = 0 := by
  unfold pulmMix
  rw [max_eq_left (by nlinarith), min_eq_right (by norm_num)]

lemma pulmMix_of_window (t : ℚ) (h0 : 0.3 ≤ t) (h1 : t ≤ 0.5) :
    pulmMix t = (t - 0.3) * 5 := by
  unfold pulmMix
  rw [max_eq_right (by nlinarith), min_eq_right (by nlinarith)]

lemma pulm_color_low (t : ℚ) (h : t ≤ 0.3) :
    particleColor (some FlowType.pulmonary) none t = COLOR_O2_POOR := by
  have hlt : t < 0.5 := by linarith [show (0.3 : ℚ) < 0.5 by norm_num]
  simp only [particleColor, if_pos hlt, pulmMix_of_le t h, lerpColors_zero]

lemma pulm_color_window (t : ℚ) (h0 : 0.3 ≤ t) (h1 : t ≤ 0.5) :
    particleColor (some FlowType.pulmonary) none t
      = lerpColors COLOR_O2_POOR COLOR_O2_RICH ((t - 0.3) * 5) := by
  rcases lt_or_eq_of_le h1 with hlt | heq
  · simp only [particleColor, if_pos hlt, pulmMix_of_window t h0 h1]
  · subst heq
    have : ((0.5 : ℚ) - 0.3) * 5 = 1 := by norm_num
    rw [this, lerpColors_one]
    simp [particleColor]

lemma pulm_color_high (t : ℚ) (h : 0.5 ≤ t) :
    particleColor (some FlowType.pulmonary) none t = COLOR_O2_RICH := by
  simp only [particleColor, if_neg (not_lt.mpr h)]

/-- Claim C3. For a `pulmonary`-kind particle with no override color the
emitted color is `COLOR_O2_POOR` (blue) for `t ≤ 0.3`, the linear
interpolation from blue to red with factor `(t - 0.3) * 5` on the window
`[0.3, 0.5]`, and `COLOR_O2_RICH` (red) for `t ≥ 0.5`; the interpolation
factor is monotone, and at `t = 0` the color is blue, at `t = 1` red. -/
theorem C3_pulmonary_color (t : ℚ) :
    (t ≤ 0.3 → particleColor (some FlowType.pulmonary) none t = COLOR_O2_POOR) ∧
    (0.3 ≤ t → t ≤ 0.5 →
      particleColor (some FlowType.pulmonary) none t
        = lerpColors COLOR_O2_POOR COLOR_O2_RICH ((t - 0.3) * 5)) ∧
    (0.5 ≤ t → particleColor (some FlowType.pulmonary) none t = COLOR_O2_RICH) ∧
    (∀ u, t ≤ u → pulmMix t ≤ pulmMix u) ∧
    particleColor (some FlowType.pulmonary) none 0 = COLOR_O2_POOR ∧
    particleColor (some FlowType.pulmonary) none 1 = COLOR_O2_RICH :=
  ⟨pulm_color_low t,
   pulm_color_window t,
   pulm_color_high t,
   fun u hu => min_le_min le_rfl (max_le_max le_rfl (by nlinarith)),
   pulm_color_low 0 (by norm_num),
   pulm_color_high 1 (by norm_num)⟩

/-- Claim C3 witness: the three regimes and the monotone factor, each
discharged at a concrete parametric position. -/
theorem C3_pulmonary_color_witness :
    particleColor (some FlowType.pulmonary) none (1/5) = COLOR_O2_POOR ∧
    particleColor (some FlowType.pulmonary) none (2/5)
      = lerpColors COLOR_O2_POOR COLOR_O2_RICH (((2/5 : ℚ) - 0.3) * 5) ∧
    particleColor (some FlowType.pulmonary) none (3/5) = COLOR_O2_RICH ∧
    pulmMix (2/5) ≤ pulmMix (9/20) :=
  ⟨(C3_pulmonary_color (1/5)).1 (by norm_num),
   (C3_pulmonary_color (2/5)).2.1 (by norm_num) (by norm_num),
   (C3_pulmonary_color (3/5)).2.2.1 (by norm_num),
   (C3_pulmonary_color (2/5)).2.2.2.1 (9/20) (by norm_num)⟩

/-- Claim C4. For a `capillary`-kind particle with no override color the
emitted color is the linear interpolation from `COLOR_O2_RICH` (red) to
`COLOR_O2_POOR` (blue) with factor exactly `t`, over the whole range;
at `t = 0` it is red and at `t = 1` blue. -/
theorem C4_capillary_color :
    (∀ t : ℚ, particleColor (some FlowType.capillary) none t
        = lerpColors COLOR_O2_RICH COLOR_O2_POOR t) ∧
    particleColor (some FlowType.capillary) none 0 = COLOR_O2_RICH ∧
    particleColor (some FlowType.capillary) none 1 = COLOR_O2_POOR :=
  ⟨fun _ => rfl,
   by rw [show particleColor (some FlowType.capillary) none 0
            = lerpColors COLOR_O2_RICH COLOR_O2_POOR 0 from rfl, lerpColors_zero],
   by rw [show particleColor (some FlowType.capillary) none 1
            = lerpColors COLOR_O2_RICH COLOR_O2_POOR 1 from rfl, lerpColors_one]⟩

/-- Claim C5. When the curve sample at the particle's advanced `t` is
undefined (`getPointAt` returned no point), the tick leaves that particle's
render-buffer slot — transform and color — unchanged; the update function is
total, so no exception or invalid value is produced. -/
theorem C5_skip_invalid_sample (eval : ℚ → Option Vec3) (ty : Option FlowType)
    (ov : Option ColorQ) (ms : ℚ) (p : Particle) (old : Slot)
    (h : eval (tickParticle p ms).t = none) :
    (tickFlow eval ty ov ms p old).2 = old := by
  simp only [tickFlow, updateSlot, h]

/-- Claim C5 witness: a concrete particle against an everywhere-undefined
curve sample keeps its concrete prior slot. -/
theorem C5_skip_invalid_sample_witness :
    (fun _ : ℚ => (none : Option Vec3)) ((tickParticle (mkParticle 0 0 0 0 0 (1/10)) 1).t)
      = none ∧
    (tickFlow (fun _ : ℚ => (none : Option Vec3)) (some FlowType.systemic) none 1
        (mkParticle 0 0 0 0 0 (1/10)) ⟨⟨1, 2, 3⟩, 1, ⟨1, 1, 1⟩⟩).2
      = ⟨⟨1, 2, 3⟩, 1, ⟨1, 1, 1⟩⟩ :=
  ⟨rfl, C5_skip_invalid_sample _ (some FlowType.systemic) none 1 _ _ rfl⟩

lemma offset_comp_bound (u radius : ℚ) (h0 : 0 ≤ u) (h1 : u ≤ 1) (hr : 0 ≤ radius) :
    |(u - 0.5) * (radius * 1.8)| ≤ (9/10) * radius := by
  rw [abs_mul, abs_of_nonneg (by nlinarith : (0 : ℚ) ≤ radius * 1.8)]
  have hu : |u - 0.5| ≤ 1/2 := abs_le.mpr ⟨by nlinarith, by nlinarith⟩
  calc |u - 0.5| * (radius * 1.8)
      ≤ (1/2) * (radius * 1.8) :=
        mul_le_mul_of_nonneg_right hu (by nlinarith)
    _ = (9/10) * radius := by ring

lemma offset_comp_sq (u radius : ℚ) (h0 : 0 ≤ u) (h1 : u ≤ 1) (hr : 0 ≤ radius) :
    ((u - 0.5) * (radius * 1.8)) ^ 2 ≤ (81/100) * radius ^ 2 := by
  have h := abs_le.mp (offset_comp_bound u radius h0 h1 hr)
  have h2 := sq_le_sq' h.1 h.2
  calc ((u - 0.5) * (radius * 1.8)) ^ 2
      ≤ ((9/10) * radius) ^ 2 := h2
    _ = (81/100) * radius ^ 2 := by ring

/-- Claim C8 (amended). A particle's lateral jitter offset is fixed at
creation and never changes across ticks, and every tick's written position is
exactly the curve point at the advanced `t` plus that fixed offset.  The bound,
however, is per component: each coordinate of the offset has magnitude at most
`0.9 × radius`, so the squared length is at most `2.43 × radius²` — the offset
vector's Euclidean length may exceed the radius itself (up to `0.9·√3 ≈ 1.56`
times it). -/
theorem C8_offset_fixed_and_bounded (u0 ux uy uz us radius ms : ℚ)
    (eval : ℚ → Option Vec3) (ty : Option FlowType) (ov : Option ColorQ) (old : Slot)
    (hx0 : 0 ≤ ux) (hx1 : ux ≤ 1) (hy0 : 0 ≤ uy) (hy1 : uy ≤ 1)
    (hz0 : 0 ≤ uz) (hz1 : uz ≤ 1) (hr : 0 ≤ radius) :
    (tickParticle (mkParticle u0 ux uy uz us radius) ms).offset
        = (mkParticle u0 ux uy uz us radius).offset ∧
    (tickFlow eval ty ov ms (mkParticle u0 ux uy uz us radius) old).1.offset
        = (mkParticle u0 ux uy uz us radius).offset ∧
    (∀ pos, eval (tickParticle (mkParticle u0 ux uy uz us radius) ms).t = some pos →
        (tickFlow eval ty ov ms (mkParticle u0 ux uy uz us radius) old).2.position
          = pos.add (mkParticle u0 ux uy uz us radius).offset) ∧
    |(mkParticle u0 ux uy uz us radius).offset.x| ≤ (9/10) * radius ∧
    |(mkParticle u0 ux uy uz us radius).offset.y| ≤ (9/10) * radius ∧
    |(mkParticle u0 ux uy uz us radius).offset.z| ≤ (9/10) * radius ∧
    (mkParticle u0 ux uy uz us radius).offset.normSq ≤ (243/100) * radius ^ 2 := by
  refine ⟨rfl, rfl, ?_, ?_, ?_, ?_, ?_⟩
  · intro pos hpos
    simp only [tickFlow, updateSlot, hpos]
    rfl
  · exact offset_comp_bound ux radius hx0 hx1 hr
  · exact offset_comp_bound uy radius hy0 hy1 hr
  · exact offset_comp_bound uz radius hz0 hz1 hr
  · have hx := offset_comp_sq ux radius hx0 hx1 hr
    have hy := offset_comp_sq uy radius hy0 hy1 hr
    have hz := offset_comp_sq uz radius hz0 hz1 hr
    show ((ux - 0.5) * (radius * 1.8)) ^ 2 + ((uy - 0.5) * (radius * 1.8)) ^ 2
        + ((uz - 0.5) * (radius * 1.8)) ^ 2 ≤ (243/100) * radius ^ 2
    linarith

/-- Claim C8 witness: the amended statement at concrete creation draws and a
concrete curve sample. -/
theorem C8_offset_fixed_and_bounded_witness :
    (tickParticle (mkParticle 0 (3/4) (1/4) (1/2) 0 (1/10)) 1).offset
        = (mkParticle 0 (3/4) (1/4) (1/2) 0 (1/10)).offset ∧
    (tickFlow (fun _ : ℚ => (some ⟨1, 1, 1⟩ : Option Vec3)) none none 1
        (mkParticle 0 (3/4) (1/4) (1/2) 0 (1/10)) ⟨⟨0, 0, 0⟩, 1, ⟨1, 1, 1⟩⟩).1.offset
        = (mkParticle 0 (3/4) (1/4) (1/2) 0 (1/10)).offset ∧
    (∀ pos, (fun _ : ℚ => (some ⟨1, 1, 1⟩ : Option Vec3))
          ((tickParticle (mkParticle 0 (3/4) (1/4) (1/2) 0 (1/10)) 1).t) = some pos →
        (tickFlow (fun _ : ℚ => (some ⟨1, 1, 1⟩ : Option Vec3)) none none 1
            (mkParticle 0 (3/4) (1/4) (1/2) 0 (1/10)) ⟨⟨0, 0, 0⟩, 1, ⟨1, 1, 1⟩⟩).2.position
          = pos.add (mkParticle 0 (3/4) (1/4) (1/2) 0 (1/10)).offset) ∧
    |(mkParticle 0 (3/4) (1/4) (1/2) 0 (1/10)).offset.x| ≤ (9/10) * (1/10) ∧
    |(mkParticle 0 (3/4) (1/4) (1/2) 0 (1/10)).offset.y| ≤ (9/10) * (1/10) ∧
    |(mkParticle 0 (3/4) (1/4) (1/2) 0 (1/10)).offset.z| ≤ (9/10) * (1/10) ∧
    (mkParticle 0 (3/4) (1/4) (1/2) 0 (1/10)).offset.normSq ≤ (243/100) * (1/10) ^ 2 :=
  C8_offset_fixed_and_bounded 0 (3/4) (1/4) (1/2) 0 (1/10) 1
    (fun _ => (some ⟨1, 1, 1⟩ : Option Vec3)) none none ⟨⟨0, 0, 0⟩, 1, ⟨1, 1, 1⟩⟩
    (by norm_num) (by norm_num) (by norm_num) (by norm_num)
    (by norm_num) (by norm_num) (by norm_num)

/-- Claim C8 counterexample, to the bound as stated: with the default radius
`0.1` and creation draws `0.99` in each axis, the offset's squared length is
`583443/25000000 ≈ 0.0233`, strictly greater than `radius² = 0.01`, so the
offset vector's length exceeds the radius. -/
theorem C8_counterexample :
    (0 : ℚ) ≤ 99/100 ∧ (99/100 : ℚ) < 1 ∧
    ((1/10 : ℚ)) ^ 2 < (mkParticle 0 (99/100) (99/100) (99/100) 0 (1/10)).offset.normSq := by
  refine ⟨by norm_num, by norm_num, ?_⟩
  norm_num [mkParticle, Vec3.normSq]

/-- Claim C10. The per-particle speed multiplier `0.8 + us * 0.4` of a
creation draw `us ∈ [0,1)` lies in `[0.8, 1.2)`, is never changed by a tick,
and scales the per-tick parametric step: the advance amount
`moveSpeed * speedMod` is between `80%` and strictly less than `120%` of the
base step whenever the base step is positive. -/
theorem C10_speedMod_range (u0 ux uy uz us radius ms : ℚ)
    (eval : ℚ → Option Vec3) (ty : Option FlowType) (ov : Option ColorQ) (old : Slot)
    (h0 : 0 ≤ us) (h1 : us < 1) :
    ((4/5 : ℚ) ≤ (mkParticle u0 ux uy uz us radius).speedMod ∧
      (mkParticle u0 ux uy uz us radius).speedMod < 6/5) ∧
    (tickParticle (mkParticle u0 ux uy uz us radius) ms).speedMod
        = (mkParticle u0 ux uy uz us radius).speedMod ∧
    (tickFlow eval ty ov ms (mkParticle u0 ux uy uz us radius) old).1.speedMod
        = (mkParticle u0 ux uy uz us radius).speedMod ∧
    (0 < ms → ms * (4/5) ≤ ms * (mkParticle u0 ux uy uz us radius).speedMod ∧
        ms * (mkParticle u0 ux uy uz us radius).speedMod < ms * (6/5)) := by
  have hlo : (4/5 : ℚ) ≤ (mkParticle u0 ux uy uz us radius).speedMod := by
    show (4/5 : ℚ) ≤ 0.8 + us * 0.4
    nlinarith
  have hhi : (mkParticle u0 ux uy uz us radius).speedMod < 6/5 := by
    show (0.8 : ℚ) + us * 0.4 < 6/5
    nlinarith
  refine ⟨⟨hlo, hhi⟩, rfl, rfl, fun hms => ⟨?_, ?_⟩⟩
  · exact mul_le_mul_of_nonneg_left hlo (le_of_lt hms)
  · exact (mul_lt_mul_left hms).mpr hhi

/-- Claim C10 witness: the statement at the concrete draw `us = 1/2`
(`speedMod = 1`) and base step `1/400`. -/
theorem C10_speedMod_range_witness :
    ((4/5 : ℚ) ≤ (mkParticle 0 0 0 0 (1/2) (1/10)).speedMod ∧
      (mkParticle 0 0 0 0 (1/2) (1/10)).speedMod < 6/5) ∧
    (tickParticle (mkParticle 0 0 0 0 (1/2) (1/10)) (1/400)).speedMod
        = (mkParticle 0 0 0 0 (1/2) (1/10)).speedMod ∧
    (tickFlow (fun _ : ℚ => some ⟨0, 0, 0⟩) none none (1/400)
        (mkParticle 0 0 0 0 (1/2) (1/10)) ⟨⟨0, 0, 0⟩, 1, ⟨1, 1, 1⟩⟩).1.speedMod
        = (mkParticle 0 0 0 0 (1/2) (1/10)).speedMod ∧
    (0 < (1/400 : ℚ) →
        (1/400 : ℚ) * (4/5) ≤ (1/400 : ℚ) * (mkParticle 0 0 0 0 (1/2) (1/10)).speedMod ∧
        (1/400 : ℚ) * (mkParticle 0 0 0 0 (1/2) (1/10)).speedMod < (1/400 : ℚ) * (6/5)) :=
  C10_speedMod_range 0 0 0 0 (1/2) (1/10) (1/400)
    (fun _ => some ⟨0, 0, 0⟩) none none ⟨⟨0, 0, 0⟩, 1, ⟨1, 1, 1⟩⟩
    (by norm_num) (by norm_num)

/-- A constructed curve: either a `CatmullRomCurve3` over its control-point
list (the `closed` flag, `false` everywhere in the source, does not affect
control-point counts and is omitted) or a `CubicBezierCurve3`, whose
constructor takes exactly four points. -/
inductive CurveSpec
  | catmullRom (pts : List Vec3)
  | cubicBezier (p0 p1 p2 p3 : Vec3)
deriving DecidableEq

/-- Number of control points supplied to the curve's constructor. -/
def CurveSpec.controlCount : CurveSpec → ℕ
  | .catmullRom pts => pts.length
  | .cubicBezier _ _ _ _ => 4

def SCALE_FACTOR : ℚ := 1.5

def POS_RA : Vec3 := ⟨-0.6, 1.8, 0.0⟩
def POS_LA : Vec3 := ⟨0.6, 1.8, -0.2⟩
def POS_RV : Vec3 := ⟨-0.4, 0.6, 0.3⟩
def POS_LV : Vec3 := ⟨0.5, 0.5, 0.0⟩

def LUNG_L_POS : Vec3 := ⟨-5.5 * SCALE_FACTOR, 3.5 * SCALE_FACTOR, 0⟩
def LUNG_R_POS : Vec3 := ⟨5.5 * SCALE_FACTOR, 3.5 * SCALE_FACTOR, 0⟩
def BODY_UPPER_POS : Vec3 := ⟨0, 6.0 * SCALE_FACTOR, 0⟩
def BODY_LOWER_POS : Vec3 := ⟨0, -5.0 * SCALE_FACTOR, 0⟩

def BED_WIDTH_HALF : ℚ := 1.2 * SCALE_FACTOR
def BED_HEIGHT_HALF : ℚ := 1.5 * SCALE_FACTOR

def pathRAtoRV : CurveSpec := .catmullRom [POS_RA, POS_RV]
def pathLAtoLV : CurveSpec := .catmullRom [POS_LA, POS_LV]

def pulmoTrunkStart : Vec3 := ⟨POS_RV.x, POS_RV.y + 0.8, POS_RV.z⟩

def pulmonaryArteryLeft : CurveSpec := .catmullRom
  [POS_RV, pulmoTrunkStart,
   ⟨-1.5 * SCALE_FACTOR, 2.5 * SCALE_FACTOR, 0.4⟩,
   ⟨-3.5 * SCALE_FACTOR, 3.2 * SCALE_FACTOR, 0.3⟩,
   LUNG_L_POS]

def pulmonaryArteryRight : CurveSpec := .catmullRom
  [POS_RV, pulmoTrunkStart,
   ⟨1.5 * SCALE_FACTOR, 2.5 * SCALE_FACTOR, 0.4⟩,
   ⟨3.5 * SCALE_FACTOR, 3.2 * SCALE_FACTOR, 0.3⟩,
   LUNG_R_POS]

def lungLSupPos : Vec3 := ⟨LUNG_L_POS.x + 0.5, LUNG_L_POS.y + 0.8 * SCALE_FACTOR, LUNG_L_POS.z - 0.3⟩
def lungLInfPos : Vec3 := ⟨LUNG_L_POS.x + 0.5, LUNG_L_POS.y - 0.8 * SCALE_FACTOR, LUNG_L_POS.z - 0.3⟩
def lungRSupPos : Vec3 := ⟨LUNG_R_POS.x - 0.5, LUNG_R_POS.y + 0.8 * SCALE_FACTOR, LUNG_R_POS.z - 0.3⟩
def lungRInfPos : Vec3 := ⟨LUNG_R_POS.x - 0.5, LUNG_R_POS.y - 0.8 * SCALE_FACTOR, LUNG_R_POS.z - 0.3⟩
def laPostEntry : Vec3 := ⟨POS_LA.x, POS_LA.y, POS_LA.z - 0.5⟩

def pulmonaryVeinLeftSup : CurveSpec := .catmullRom
  [lungLSupPos,
   ⟨-2.5 * SCALE_FACTOR, 3.5 * SCALE_FACTOR, -0.5⟩,
   ⟨-1.0 * SCALE_FACTOR, 2.8 * SCALE_FACTOR, -0.6⟩,
   laPostEntry]

def pulmonaryVeinLeftInf : CurveSpec := .catmullRom
  [lungLInfPos,
   ⟨-2.5 * SCALE_FACTOR, 2.2 * SCALE_FACTOR, -0.5⟩,
   ⟨-1.0 * SCALE_FACTOR, 2.0 * SCALE_FACTOR, -0.6⟩,
   laPostEntry]

def pulmonaryVeinRightSup : CurveSpec := .catmullRom
  [lungRSupPos,
   ⟨2.5 * SCALE_FACTOR, 3.5 * SCALE_FACTOR, -0.5⟩,
   ⟨1.5 * SCALE_FACTOR, 2.8 * SCALE_FACTOR, -0.6⟩,
   laPostEntry]

def pulmonaryVeinRightInf : CurveSpec := .catmullRom
  [lungRInfPos,
   ⟨2.5 * SCALE_FACTOR, 2.2 * SCALE_FACTOR, -0.5⟩,
   ⟨1.5 * SCALE_FACTOR, 2.0 * SCALE_FACTOR, -0.6⟩,
   laPostEntry]

def pulmonaryTrunkVisual : CurveSpec := .catmullRom
  [POS_RV, pulmoTrunkStart,
   ⟨pulmoTrunkStart.x - 0.5, pulmoTrunkStart.y + 0.2, pulmoTrunkStart.z⟩]

def aortaRoot : Vec3 := ⟨POS_LV.x, POS_LV.y + 1.2, POS_LV.z⟩
def aorticArch : Vec3 := ⟨0.0, 2.8 * SCALE_FACTOR, 0.2⟩

def upperBedInlet : Vec3 := ⟨BODY_UPPER_POS.x - BED_WIDTH_HALF, BODY_UPPER_POS.y - BED_HEIGHT_HALF, 0⟩
def upperBedOutlet : Vec3 := ⟨BODY_UPPER_POS.x + BED_WIDTH_HALF, BODY_UPPER_POS.y - BED_HEIGHT_HALF, 0⟩

def MICROVESSEL_GAP : ℚ := 2.5

def upperArteryEnd : Vec3 := ⟨upperBedInlet.x, upperBedInlet.y - MICROVESSEL_GAP, 0⟩
def upperVeinStart : Vec3 := ⟨upperBedOutlet.x, upperBedOutlet.y - MICROVESSEL_GAP, -0.1⟩

def systemicUpperArtery : CurveSpec := .catmullRom
  [POS_LV, aortaRoot, aorticArch,
   ⟨upperArteryEnd.x, upperArteryEnd.y - 1.0, 0⟩,
   upperArteryEnd]

def systemicUpperVein : CurveSpec := .catmullRom
  [upperVeinStart,
   ⟨upperVeinStart.x, upperVeinStart.y - 0.5, -0.15⟩,
   ⟨1.2 * SCALE_FACTOR, 3.0 * SCALE_FACTOR, -0.2⟩,
   ⟨0.0, 2.5 * SCALE_FACTOR, -0.2⟩,
   POS_RA]

def systemicUpperArteryVisual : CurveSpec := .catmullRom
  [POS_LV, aortaRoot, aorticArch,
   ⟨-0.8 * SCALE_FACTOR, 2.8 * SCALE_FACTOR, 0⟩,
   upperArteryEnd]

def systemicUpperVeinVisual : CurveSpec := .catmullRom
  [upperVeinStart,
   ⟨1.0 * SCALE_FACTOR, 3.5 * SCALE_FACTOR, -0.2⟩,
   ⟨POS_RA.x + 0.2, POS_RA.y + 1.0 * SCALE_FACTOR, POS_RA.z⟩,
   POS_RA]

def lowerBedInlet : Vec3 := ⟨BODY_LOWER_POS.x - BED_WIDTH_HALF, BODY_LOWER_POS.y + BED_HEIGHT_HALF, 0⟩
def lowerBedOutlet : Vec3 := ⟨BODY_LOWER_POS.x + BED_WIDTH_HALF, BODY_LOWER_POS.y + BED_HEIGHT_HALF, 0⟩

def lowerArteryEnd : Vec3 := ⟨lowerBedInlet.x, lowerBedInlet.y + MICROVESSEL_GAP, 0⟩
def lowerVeinStart : Vec3 := ⟨lowerBedOutlet.x, lowerBedOutlet.y + MICROVESSEL_GAP, -0.1⟩

def systemicLowerArtery : CurveSpec := .catmullRom
  [POS_LV, aortaRoot,
   ⟨-0.2, 0.0, -0.5⟩,
   ⟨lowerArteryEnd.x, lowerArteryEnd.y + 1.0, 0⟩,
   lowerArteryEnd]

def systemicLowerVein : CurveSpec := .catmullRom
  [lowerVeinStart,
   ⟨lowerVeinStart.x, lowerVeinStart.y + 0.5, -0.15⟩,
   ⟨0.8, -2.5 * SCALE_FACTOR, -0.3⟩,
   ⟨0.6, -1.0 * SCALE_FACTOR, -0.4⟩,
   ⟨0.4, 0.2, -0.5⟩,
   ⟨POS_RA.x + 0.3, POS_RA.y - 0.5, POS_RA.z - 0.3⟩,
   POS_RA]

def systemicLowerArteryVisual : CurveSpec := .catmullRom
  [aorticArch, ⟨-0.2, 0.0, -0.5⟩, lowerArteryEnd]

def systemicLowerVeinVisual : CurveSpec := .catmullRom
  [lowerVeinStart,
   ⟨0.8, -2.5 * SCALE_FACTOR, -0.3⟩,
   ⟨0.6, -1.0 * SCALE_FACTOR, -0.4⟩,
   ⟨0.4, 0.2, -0.5⟩,
   ⟨POS_RA.x + 0.3, POS_RA.y - 0.5, POS_RA.z - 0.3⟩,
   POS_RA]

def brachiocephalicArtery : CurveSpec := .catmullRom
  [aorticArch,
   ⟨0.4 * SCALE_FACTOR, 3.2 * SCALE_FACTOR, 0.15⟩,
   ⟨0.8 * SCALE_FACTOR, 3.8 * SCALE_FACTOR, 0.1⟩,
   ⟨0.6 * SCALE_FACTOR, 4.5 * SCALE_FACTOR, 0⟩]

def leftCarotidArtery : CurveSpec := .catmullRom
  [aorticArch,
   ⟨-0.2 * SCALE_FACTOR, 3.3 * SCALE_FACTOR, 0.15⟩,
   ⟨-0.3 * SCALE_FACTOR, 4.0 * SCALE_FACTOR, 0.1⟩,
   ⟨-0.2 * SCALE_FACTOR, 4.5 * SCALE_FACTOR, 0⟩]

def leftSubclavianArtery : CurveSpec := .catmullRom
  [aorticArch,
   ⟨-0.6 * SCALE_FACTOR, 3.2 * SCALE_FACTOR, 0.1⟩,
   ⟨-1.0 * SCALE_FACTOR, 3.8 * SCALE_FACTOR, 0.05⟩,
   ⟨-1.2 * SCALE_FACTOR, 4.5 * SCALE_FACTOR, 0⟩]

def leftIliacArtery : CurveSpec := .catmullRom
  [⟨-0.2, -1.5 * SCALE_FACTOR, -0.4⟩,
   ⟨-0.5 * SCALE_FACTOR, -2.2 * SCALE_FACTOR, -0.2⟩,
   ⟨-0.8 * SCALE_FACTOR, -2.8 * SCALE_FACTOR, -0.1⟩,
   ⟨-1.2 * SCALE_FACTOR, -3.5 * SCALE_FACTOR, 0⟩]

def rightIliacArtery : CurveSpec := .catmullRom
  [⟨-0.2, -1.5 * SCALE_FACTOR, -0.4⟩,
   ⟨0.2 * SCALE_FACTOR, -2.2 * SCALE_FACTOR, -0.2⟩,
   ⟨0.5 * SCALE_FACTOR, -2.8 * SCALE_FACTOR, -0.1⟩,
   ⟨0.6 * SCALE_FACTOR, -3.5 * SCALE_FACTOR, 0⟩]

def rightBrachiocephalicVein : CurveSpec := .catmullRom
  [⟨0.8 * SCALE_FACTOR, 4.5 * SCALE_FACTOR, -0.1⟩,
   ⟨0.9 * SCALE_FACTOR, 4.0 * SCALE_FACTOR, -0.15⟩,
   ⟨0.8 * SCALE_FACTOR, 3.5 * SCALE_FACTOR, -0.2⟩,
   ⟨0.5 * SCALE_FACTOR, 3.0 * SCALE_FACTOR, -0.2⟩]

def leftBrachiocephalicVein : CurveSpec := .catmullRom
  [⟨-0.6 * SCALE_FACTOR, 4.5 * SCALE_FACTOR, -0.1⟩,
   ⟨-0.2 * SCALE_FACTOR, 4.0 * SCALE_FACTOR, -0.15⟩,
   ⟨0.2 * SCALE_FACTOR, 3.5 * SCALE_FACTOR, -0.2⟩,
   ⟨0.5 * SCALE_FACTOR, 3.0 * SCALE_FACTOR, -0.2⟩]

def leftIliacVein : CurveSpec := .catmullRom
  [⟨-0.4 * SCALE_FACTOR, -3.5 * SCALE_FACTOR, -0.1⟩,
   ⟨-0.2 * SCALE_FACTOR, -3.0 * SCALE_FACTOR, -0.2⟩,
   ⟨0.2 * SCALE_FACTOR, -2.6 * SCALE_FACTOR, -0.25⟩,
   ⟨0.6, -2.3 * SCALE_FACTOR, -0.3⟩]

def rightIliacVein : CurveSpec := .catmullRom
  [⟨1.0 * SCALE_FACTOR, -3.5 * SCALE_FACTOR, -0.1⟩,
   ⟨0.9 * SCALE_FACTOR, -3.0 * SCALE_FACTOR, -0.2⟩,
   ⟨0.8 * SCALE_FACTOR, -2.6 * SCALE_FACTOR, -0.25⟩,
   ⟨0.7, -2.3 * SCALE_FACTOR, -0.3⟩]

def upperArterioles : List CurveSpec :=
  [.catmullRom
    [upperArteryEnd,
     ⟨upperArteryEnd.x - 0.4, upperArteryEnd.y + 0.8, 0.15⟩,
     ⟨upperBedInlet.x - 0.2, upperBedInlet.y - 0.5, 0.1⟩,
     ⟨upperBedInlet.x, upperBedInlet.y + BED_HEIGHT_HALF * 0.5, 0⟩],
   .catmullRom
    [upperArteryEnd,
     ⟨upperArteryEnd.x, upperArteryEnd.y + 0.8, 0⟩,
     ⟨upperBedInlet.x, upperBedInlet.y - 0.4, 0⟩,
     ⟨upperBedInlet.x, upperBedInlet.y, 0⟩],
   .catmullRom
    [upperArteryEnd,
     ⟨upperArteryEnd.x + 0.4, upperArteryEnd.y + 0.8, -0.15⟩,
     ⟨upperBedInlet.x + 0.2, upperBedInlet.y - 0.5, -0.1⟩,
     ⟨upperBedInlet.x, upperBedInlet.y - BED_HEIGHT_HALF * 0.5, 0⟩]]

def lowerArterioles : List CurveSpec :=
  [.catmullRom
    [lowerArteryEnd,
     ⟨lowerArteryEnd.x - 0.4, lowerArteryEnd.y - 0.8, 0.15⟩,
     ⟨lowerBedInlet.x - 0.2, lowerBedInlet.y + 0.5, 0.1⟩,
     ⟨lowerBedInlet.x, lowerBedInlet.y + BED_HEIGHT_HALF * 0.5, 0⟩],
   .catmullRom
    [lowerArteryEnd,
     ⟨lowerArteryEnd.x, lowerArteryEnd.y - 0.8, 0⟩,
     ⟨lowerBedInlet.x, lowerBedInlet.y + 0.4, 0⟩,
     ⟨lowerBedInlet.x, lowerBedInlet.y, 0⟩],
   .catmullRom
    [lowerArteryEnd,
     ⟨lowerArteryEnd.x + 0.4, lowerArteryEnd.y - 0.8, -0.15⟩,
     ⟨lowerBedInlet.x + 0.2, lowerBedInlet.y + 0.5, -0.1⟩,
     ⟨lowerBedInlet.x, lowerBedInlet.y - BED_HEIGHT_HALF * 0.5, 0⟩]]

def upperVenules : List CurveSpec :=
  [.catmullRom
    [⟨upperBedOutlet.x, upperBedOutlet.y + BED_HEIGHT_HALF * 0.5, 0⟩,
     ⟨upperBedOutlet.x + 0.2, upperBedOutlet.y - 0.5, -0.1⟩,
     ⟨upperVeinStart.x + 0.4, upperVeinStart.y + 0.8, -0.15⟩,
     upperVeinStart],
   .catmullRom
    [⟨upperBedOutlet.x, upperBedOutlet.y, 0⟩,
     ⟨upperBedOutlet.x, upperBedOutlet.y - 0.4, -0.05⟩,
     ⟨upperVeinStart.x, upperVeinStart.y + 0.8, -0.1⟩,
     upperVeinStart],
   .catmullRom
    [⟨upperBedOutlet.x, upperBedOutlet.y - BED_HEIGHT_HALF * 0.5, 0⟩,
     ⟨upperBedOutlet.x - 0.2, upperBedOutlet.y - 0.5, -0.1⟩,
     ⟨upperVeinStart.x - 0.4, upperVeinStart.y + 0.8, -0.15⟩,
     upperVeinStart]]

def lowerVenules : List CurveSpec :=
  [.catmullRom
    [⟨lowerBedOutlet.x, lowerBedOutlet.y + BED_HEIGHT_HALF * 0.5, 0⟩,
     ⟨lowerBedOutlet.x + 0.2, lowerBedOutlet.y + 0.5, -0.1⟩,
     ⟨lowerVeinStart.x + 0.4, lowerVeinStart.y - 0.8, -0.15⟩,
     lowerVeinStart],
   .catmullRom
    [⟨lowerBedOutlet.x, lowerBedOutlet.y, 0⟩,
     ⟨lowerBedOutlet.x, lowerBedOutlet.y + 0.4, -0.05⟩,
     ⟨lowerVeinStart.x, lowerVeinStart.y - 0.8, -0.1⟩,
     lowerVeinStart],
   .catmullRom
    [⟨lowerBedOutlet.x, lowerBedOutlet.y - BED_HEIGHT_HALF * 0.5, 0⟩,
     ⟨lowerBedOutlet.x - 0.2, lowerBedOutlet.y + 0.5, -0.1⟩,
     ⟨lowerVeinStart.x - 0.4, lowerVeinStart.y - 0.8, -0.15⟩,
     lowerVeinStart]]

/-- The two vertical "rail" tubes of a `CapillaryBed`. -/
def leftVesselPath : CurveSpec := .catmullRom
  [⟨-BED_WIDTH_HALF, -BED_HEIGHT_HALF, 0⟩,
   ⟨-BED_WIDTH_HALF, 0, 0⟩,
   ⟨-BED_WIDTH_HALF, BED_HEIGHT_HALF, 0⟩]

def rightVesselPath : CurveSpec := .catmullRom
  [⟨BED_WIDTH_HALF, -BED_HEIGHT_HALF, 0⟩,
   ⟨BED_WIDTH_HALF, 0, 0⟩,
   ⟨BED_WIDTH_HALF, BED_HEIGHT_HALF, 0⟩]

/-- Every curve the Curve Builder constructs from the layout constants:
the named vessel graph, the visual-only variants, the arteriole/venule fans,
and the capillary-bed rails.  (The capillary bridges are runtime-generated
cubic beziers, covered by `mkBridge` below.) -/
def allConstructedCurves : List CurveSpec :=
  [pathRAtoRV, pathLAtoLV, pulmonaryArteryLeft, pulmonaryArteryRight,
   pulmonaryVeinLeftSup, pulmonaryVeinLeftInf, pulmonaryVeinRightSup,
   pulmonaryVeinRightInf, pulmonaryTrunkVisual, systemicUpperArtery,
   systemicUpperVein, systemicUpperArteryVisual, systemicUpperVeinVisual,
   systemicLowerArtery, systemicLowerVein, systemicLowerArteryVisual,
   systemicLowerVeinVisual, brachiocephalicArtery, leftCarotidArtery,
   leftSubclavianArtery, leftIliacArtery, rightIliacArtery,
   rightBrachiocephalicVein, leftBrachiocephalicVein, leftIliacVein,
   rightIliacVein, leftVesselPath, rightVesselPath]
  ++ upperArterioles ++ lowerArterioles ++ upperVenules ++ lowerVenules

/-- Parameter of the `i`-th capillary bridge sample:
`t = 0.05 + (i / (count - 1)) * 0.9` with `count = 20`. -/
def bridgeParam (i : ℕ) : ℚ := 0.05 + ((i : ℚ) / 19) * 0.9

/-- The four `Math.random()` draws consumed by one bridge's two handles. -/
structure Jitter where
  y1 : ℚ
  z1 : ℚ
  y2 : ℚ
  z2 : ℚ
deriving DecidableEq

/-- Handle displacement in `y`: `(Math.random() - 0.5) * 0.5`. -/
def jitterY (u : ℚ) : ℚ := (u - 0.5) * 0.5

/-- Handle displacement in `z`: `(Math.random() - 0.5) * 0.8`. -/
def jitterZ (u : ℚ) : ℚ := (u - 0.5) * 0.8

/-- One capillary bridge between rail samples `s` and `e`: a cubic bezier whose
interior handles are the points at fractions `0.33` and `0.66` of the
start–end segment, displaced in `y` and `z` by the jitter draws. -/
def mkBridge (s e : Vec3) (j : Jitter) : CurveSpec :=
  let m1 := lerpVectors s e 0.33
  let m2 := lerpVectors s e 0.66
  CurveSpec.cubicBezier s
    ⟨m1.x, m1.y + jitterY j.y1, m1.z + jitterZ j.z1⟩
    ⟨m2.x, m2.y + jitterY j.y2, m2.z + jitterZ j.z2⟩
    e

/-- The bridge generator of `CapillaryBed`: for `i < 20` sample both rails at
`bridgeParam i` and, when both samples exist (`if (start && end)`), push the
bridge built from the jitter draws `js i` taken at construction. -/
def buildBridges (leftEval rightEval : ℚ → Option Vec3) (js : ℕ → Jitter) :
    List CurveSpec :=
  (List.range 20).filterMap fun i =>
    match leftEval (bridgeParam i), rightEval (bridgeParam i) with
    | some s, some e => some (mkBridge s e (js i))
    | _, _ => none

/-- Claim C2 counterexample: the internal heart path `pathRAtoRV`
(`new CatmullRomCurve3([POS_RA, POS_RV], false)`, source line 442) is a
constructed interpolating spline supplied with only two control points. -/
theorem C2_counterexample :
    pathRAtoRV ∈ allConstructedCurves ∧ pathRAtoRV.controlCount = 2 ∧
    ¬ 3 ≤ pathRAtoRV.controlCount := by
  refine ⟨?_, rfl, by decide⟩
  with_unfolding_all decide

/-- Claim C2 (amended). Every cubic bezier is supplied exactly four control
points (the bridge constructor's arity), and every constructed interpolating
spline is supplied at least three control points except the two internal heart
paths `pathRAtoRV` and `pathLAtoLV`, which receive only two. -/
theorem C2_control_counts (c : CurveSpec) (hc : c ∈ allConstructedCurves)
    (s e : Vec3) (j : Jitter) :
    (3 ≤ c.controlCount ∨ c = pathRAtoRV ∨ c = pathLAtoLV) ∧
    pathRAtoRV.controlCount = 2 ∧ pathLAtoLV.controlCount = 2 ∧
    (mkBridge s e j).controlCount = 4 := by
  refine ⟨?_, rfl, rfl, rfl⟩
  have h : ∀ x ∈ allConstructedCurves,
      3 ≤ CurveSpec.controlCount x ∨ x = pathRAtoRV ∨ x = pathLAtoLV := by
    with_unfolding_all decide
  exact h c hc

/-- Claim C2 witness: the amended statement at the capillary-bed left rail and
a concrete bridge. -/
theorem C2_control_counts_witness :
    leftVesselPath ∈ allConstructedCurves ∧
    ((3 ≤ leftVesselPath.controlCount ∨ leftVesselPath = pathRAtoRV ∨
        leftVesselPath = pathLAtoLV) ∧
     pathRAtoRV.controlCount = 2 ∧ pathLAtoLV.controlCount = 2 ∧
     (mkBridge ⟨0, 0, 0⟩ ⟨1, 0, 0⟩ ⟨0, 0, 0, 0⟩).controlCount = 4) :=
  ⟨by with_unfolding_all decide,
   C2_control_counts leftVesselPath (by with_unfolding_all decide)
     ⟨0, 0, 0⟩ ⟨1, 0, 0⟩ ⟨0, 0, 0, 0⟩⟩

lemma filterMap_eq_map_of_some {α β : Type} (f : α → Option β) (g : α → β) :
    ∀ l : List α, (∀ a ∈ l, f a = some (g a)) → l.filterMap f = l.map g := by
  intro l
  induction l with
  | nil => intro _; rfl
  | cons a l ih =>
      intro h
      rw [List.filterMap_cons, h a (List.mem_cons_self a l), List.map_cons,
          ih fun b hb => h b (List.mem_cons_of_mem a hb)]

lemma jitterY_bound (u : ℚ) (h0 : 0 ≤ u) (h1 : u < 1) : |jitterY u| ≤ 1/4 := by
  unfold jitterY
  rw [abs_mul]
  have hu : |u - 0.5| ≤ 1/2 := abs_le.mpr ⟨by nlinarith, by nlinarith⟩
  calc |u - 0.5| * |(0.5 : ℚ)|
      ≤ (1/2) * |(0.5 : ℚ)| := mul_le_mul_of_nonneg_right hu (abs_nonneg _)
    _ = 1/4 := by rw [abs_of_nonneg (by norm_num : (0:ℚ) ≤ 0.5)]; norm_num

lemma jitterZ_bound (u : ℚ) (h0 : 0 ≤ u) (h1 : u < 1) : |jitterZ u| ≤ 2/5 := by
  unfold jitterZ
  rw [abs_mul]
  have hu : |u - 0.5| ≤ 1/2 := abs_le.mpr ⟨by nlinarith, by nlinarith⟩
  calc |u - 0.5| * |(0.8 : ℚ)|
      ≤ (1/2) * |(0.8 : ℚ)| := mul_le_mul_of_nonneg_right hu (abs_nonneg _)
    _ = 2/5 := by rw [abs_of_nonneg (by norm_num : (0:ℚ) ≤ 0.8)]; norm_num

/-- Claim C9. Whenever both rails yield a point at each of the 20 sample
parameters (which three.js guarantees for the well-formed rails), the generator
produces exactly 20 cubic bezier bridges; the `i`-th bridge starts at the left
rail's sample and ends at the right rail's sample at the same parameter
`bridgeParam i`; the 20 parameters are evenly spaced (`9/190` apart, from
`0.05` to `0.95`); each interior handle is the point at fraction `0.33`
(resp. `0.66`) along the start–end segment displaced by jitter bounded by
`0.25` in `y` and `0.4` in `z`; and the output is a pure function of the
construction-time draws, hence stable for the mounted scene's lifetime. -/
theorem C9_capillary_bridges (leftEval rightEval : ℚ → Option Vec3)
    (L R : ℕ → Vec3) (js : ℕ → Jitter)
    (hL : ∀ i, i < 20 → leftEval (bridgeParam i) = some (L i))
    (hR : ∀ i, i < 20 → rightEval (bridgeParam i) = some (R i)) :
    buildBridges leftEval rightEval js
        = (List.range 20).map (fun i => mkBridge (L i) (R i) (js i)) ∧
    (buildBridges leftEval rightEval js).length = 20 ∧
    (∀ i : ℕ, bridgeParam (i + 1) - bridgeParam i = 9/190) ∧
    bridgeParam 0 = 1/20 ∧ bridgeParam 19 = 19/20 ∧
    (∀ s e j, mkBridge s e j = CurveSpec.cubicBezier s
        ⟨(lerpVectors s e 0.33).x,
         (lerpVectors s e 0.33).y + jitterY j.y1,
         (lerpVectors s e 0.33).z + jitterZ j.z1⟩
        ⟨(lerpVectors s e 0.66).x,
         (lerpVectors s e 0.66).y + jitterY j.y2,
         (lerpVectors s e 0.66).z + jitterZ j.z2⟩
        e) ∧
    (∀ u : ℚ, 0 ≤ u → u < 1 → |jitterY u| ≤ 1/4 ∧ |jitterZ u| ≤ 2/5) := by
  have hmap : buildBridges leftEval rightEval js
      = (List.range 20).map (fun i => mkBridge (L i) (R i) (js i)) := by
    apply filterMap_eq_map_of_some
    intro i hi
    have hi20 : i < 20 := List.mem_range.mp hi
    rw [hL i hi20, hR i hi20]
  refine ⟨hmap, ?_, ?_, by norm_num [bridgeParam], by norm_num [bridgeParam], ?_, ?_⟩
  · rw [hmap, List.length_map, List.length_range]
  · intro i
    unfold bridgeParam
    push_cast
    ring
  · intro s e j
    rfl
  · intro u h0 h1
    exact ⟨jitterY_bound u h0 h1, jitterZ_bound u h0 h1⟩

/-- Claim C9 witness: the statement at concrete total rail evaluators and a
concrete jitter sequence. -/
theorem C9_capillary_bridges_witness :
    buildBridges (fun q => (some ⟨-1, q, 0⟩ : Option Vec3))
        (fun q => (some ⟨1, q, 0⟩ : Option Vec3)) (fun _ => ⟨0, 0, 0, 0⟩)
        = (List.range 20).map
            (fun i => mkBridge ⟨-1, bridgeParam i, 0⟩ ⟨1, bridgeParam i, 0⟩ ⟨0, 0, 0, 0⟩) ∧
    (buildBridges (fun q => (some ⟨-1, q, 0⟩ : Option Vec3))
        (fun q => (some ⟨1, q, 0⟩ : Option Vec3)) (fun _ => ⟨0, 0, 0, 0⟩)).length = 20 ∧
    (∀ i : ℕ, bridgeParam (i + 1) - bridgeParam i = 9/190) ∧
    bridgeParam 0 = 1/20 ∧ bridgeParam 19 = 19/20 ∧
    (∀ s e j, mkBridge s e j = CurveSpec.cubicBezier s
        ⟨(lerpVectors s e 0.33).x,
         (lerpVectors s e 0.33).y + jitterY j.y1,
         (lerpVectors s e 0.33).z + jitterZ j.z1⟩
        ⟨(lerpVectors s e 0.66).x,
         (lerpVectors s e 0.66).y + jitterY j.y2,
         (lerpVectors s e 0.66).z + jitterZ j.z2⟩
        e) ∧
    (∀ u : ℚ, 0 ≤ u → u < 1 → |jitterY u| ≤ 1/4 ∧ |jitterZ u| ≤ 2/5) :=
  C9_capillary_bridges _ _ (fun i => ⟨-1, bridgeParam i, 0⟩)
    (fun i => ⟨1, bridgeParam i, 0⟩) (fun _ => ⟨0, 0, 0, 0⟩)
    (fun _ _ => rfl) (fun _ _ => rfl)

/-- The Settings record fanned down by the Scene Composer
(`SimulationSettings` in `types.ts`). -/
structure Settings where
  heartRate : ℚ
  flowSpeed : ℚ
  respirationRate : ℚ
  showVessels : Bool
deriving DecidableEq

/-- `HeartChamber` beat term:
`Math.pow(Math.sin((time * beatFreq + phaseOffset) * Math.PI * 2), 12)`
with `beatFreq = bpm / 60`. -/
noncomputable def heartBeat (bpm phaseOffset time : ℝ) : ℝ :=
  Real.sin ((time * (bpm / 60) + phaseOffset) * (Real.pi * 2)) ^ 12

/-- `HeartChamber` pulse factor: `1 + beat * 0.1`. -/
noncomputable def heartPulse (bpm phaseOffset time : ℝ) : ℝ :=
  1 + heartBeat bpm phaseOffset time * 0.1

/-- One rendered scale component of a chamber:
`meshRef.current.scale.set(scale[i] * pulse, ...)`. -/
noncomputable def chamberScale (baseScale bpm phaseOffset time : ℝ) : ℝ :=
  baseScale * heartPulse bpm phaseOffset time

/-- `LungShape` breathing factor:
`Math.sin(clock.getElapsedTime() * 0.8) * 0.05 + 1`. -/
noncomputable def lungBreath (time : ℝ) : ℝ := Real.sin (time * 0.8) * 0.05 + 1

/-- The lung mesh scale: `scale.set(1.4 * breath, 2.2 * breath, 1.2 * breath)`. -/
noncomputable def lungShapeScale (time : ℝ) : ℝ × ℝ × ℝ :=
  (1.4 * lungBreath time, 2.2 * lungBreath time, 1.2 * lungBreath time)

/-- The lung scale as the scene renders it: `CirculatorySystem` receives the
settings but `LungShape` takes none of them, so the output ignores them. -/
noncomputable def sceneLungScale (_s : Settings) (time : ℝ) : ℝ × ℝ × ℝ :=
  lungShapeScale time

/-- Claim C6. Each rendered chamber scale component equals
`baseScale * (1 + sin(2π(elapsed·(BPM/60) + phaseOffset))^12 * 0.1)`; when the
sine is `1` it is exactly `1.1 × baseScale`, when the sine is `0` exactly
`1.0 × baseScale`; and the oscillation frequency is `BPM/60`: the scale at
rate `bpm` and time `t` equals the scale at 60 BPM and time `t·(bpm/60)`. -/
theorem C6_chamber_pulse (baseScale bpm phaseOffset time : ℝ) :
    chamberScale baseScale bpm phaseOffset time
      = baseScale *
          (1 + Real.sin (2 * Real.pi * (time * (bpm / 60) + phaseOffset)) ^ 12 * 0.1) ∧
    (Real.sin ((time * (bpm / 60) + phaseOffset) * (Real.pi * 2)) = 1 →
      chamberScale baseScale bpm phaseOffset time = 1.1 * baseScale) ∧
    (Real.sin ((time * (bpm / 60) + phaseOffset) * (Real.pi * 2)) = 0 →
      chamberScale baseScale bpm phaseOffset time = 1.0 * baseScale) ∧
    chamberScale baseScale bpm phaseOffset time
      = chamberScale baseScale 60 phaseOffset (time * (bpm / 60)) := by
  have harg : (time * (bpm / 60) + phaseOffset) * (Real.pi * 2)
      = 2 * Real.pi * (time * (bpm / 60) + phaseOffset) := by ring
  refine ⟨?_, ?_, ?_, ?_⟩
  · unfold chamberScale heartPulse heartBeat
    rw [harg]
  · intro h
    unfold chamberScale heartPulse heartBeat
    rw [h]
    norm_num
    ring
  · intro h
    unfold chamberScale heartPulse heartBeat
    rw [h]
    norm_num
  · unfold chamberScale heartPulse heartBeat
    have h : time * (bpm / 60) * (60 / 60) + phaseOffset
        = time * (bpm / 60) + phaseOffset := by ring
    rw [h]

/-- Claim C6 witness: peak at `sin(π/2) = 1` (heartRate 72, phase `1/4`,
elapsed 0) gives `1.1 ×` base; rest at `sin 0 = 0` gives `1.0 ×` base. -/
theorem C6_chamber_pulse_witness :
    chamberScale 2 72 (1/4) 0 = 1.1 * 2 ∧ chamberScale 5 72 0 0 = 1.0 * 5 := by
  constructor
  · apply (C6_chamber_pulse 2 72 (1/4) 0).2.1
    have h : ((0 : ℝ) * (72 / 60) + 1/4) * (Real.pi * 2) = Real.pi / 2 := by ring
    rw [h, Real.sin_pi_div_two]
  · apply (C6_chamber_pulse 5 72 0 0).2.2.1
    have h : ((0 : ℝ) * (72 / 60) + 0) * (Real.pi * 2) = 0 := by ring
    rw [h, Real.sin_zero]

/-- Claim C7. The lung breathing scale is
`base-axis-scale × (1 + sin(elapsed · 0.8) · 0.05)` with the frequency `0.8`
hardcoded; two runs at the same elapsed time whose Settings differ only in
`respirationRate` produce identical lung scales. -/
theorem C7_lung_ignores_respiration (s1 s2 : Settings) (time : ℝ)
    (hh : s1.heartRate = s2.heartRate) (hf : s1.flowSpeed = s2.flowSpeed)
    (hv : s1.showVessels = s2.showVessels) :
    sceneLungScale s1 time = sceneLungScale s2 time ∧
    sceneLungScale s1 time
      = (1.4 * (1 + Real.sin (time * 0.8) * 0.05),
         2.2 * (1 + Real.sin (time * 0.8) * 0.05),
         1.2 * (1 + Real.sin (time * 0.8) * 0.05)) := by
  refine ⟨rfl, ?_⟩
  unfold sceneLungScale lungShapeScale lungBreath
  refine Prod.ext ?_ (Prod.ext ?_ ?_) <;> simp only [] <;> ring

/-- Claim C7 witness: two concrete Settings differing only in
`respirationRate` (16 vs 40 breaths/min) give the same lung scale. -/
theorem C7_lung_ignores_respiration_witness :
    sceneLungScale ⟨72, 1, 16, true⟩ 0 = sceneLungScale ⟨72, 1, 40, true⟩ 0 :=
  (C7_lung_ignores_respiration ⟨72, 1, 16, true⟩ ⟨72, 1, 40, true⟩ 0 rfl rfl rfl).1

end Circulatory
